import Mathlib

/-
Shallow embedding of the course/quiz REST backend.

Sources:
  src/models/Quiz.js           quizSchema and courseSchema (Mongoose)
  src/unnamed/part_001         routes/courses.js  (5 course handlers)
  src/routes/quizzes.js        5 quiz handlers

Modelling conventions:
  A Mongoose document identifier is a 24-character hexadecimal string;
  isValidObjectId models the cast performed by findById and friends, which
  throws a CastError on any string that is not a well-formed ObjectId.
  A JSON body is modelled field by field with Option: none means the field
  is absent from the payload, some v that it is present with value v.
  JS numbers are modelled as Int, which is enough for the numeric behaviour
  the handlers exhibit (the schema has no min/max/integrality check, so the
  sign and fractional part are never inspected; explicit nulls in update
  bodies are not modelled because no handler distinguishes them).
  The store is a pair of association lists keyed by identifier, mirroring
  the two MongoDB collections; document _id uniqueness is carried as a
  Nodup hypothesis where a proof needs it.
-/

namespace EduPlatform

def isHexChar (c : Char) : Bool :=
  c.isDigit || (('a' ≤ c) && (c ≤ 'f')) || (('A' ≤ c) && (c ≤ 'F'))

/-- A well-formed MongoDB ObjectId in its 24-character hexadecimal string
form; any other string makes findById / findByIdAndUpdate /
findByIdAndDelete throw a CastError before touching the collection. -/
def isValidObjectId (s : String) : Bool :=
  s.length == 24 && s.toList.all isHexChar

/-- Embedded chapter sub-record of courseSchema: title, content,
description and duration are required, videoLink is optional. -/
structure Chapter where
  title : Option String
  content : Option String
  description : Option String
  videoLink : Option String
  duration : Option Int
deriving DecidableEq, Repr

def validChapter (ch : Chapter) : Bool :=
  ch.title.isSome && ch.content.isSome && ch.description.isSome && ch.duration.isSome

/-- A course document as stored: every schema field, each Option because a
payload may omit it and an unvalidated update may leave it absent. -/
structure CourseDoc where
  category : Option String
  title : Option String
  description : Option String
  duration : Option Int
  instructorName : Option String
  language : Option String
  level : Option String
  price : Option Int
  status : Option String
  visibility : Option String
  chapters : List Chapter
deriving DecidableEq, Repr

/-- The required-field presence checks of courseSchema (all ten scalar
fields carry required: true). -/
def requiredCoursePresent (c : CourseDoc) : Bool :=
  c.category.isSome && c.title.isSome && c.description.isSome &&
  c.duration.isSome && c.instructorName.isSome && c.language.isSome &&
  c.level.isSome && c.price.isSome && c.status.isSome && c.visibility.isSome

/-- enum: ['published', 'draft'] on status (combined with required). -/
def validStatus : Option String → Bool
  | some s => s == "published" || s == "draft"
  | none => false

/-- enum: ['public', 'private'] on visibility (combined with required). -/
def validVisibility : Option String → Bool
  | some s => s == "public" || s == "private"
  | none => false

/-- Full document validation run by Course.prototype.save: required
presence, the two enums, and the embedded chapter subdocuments. -/
def validCourse (c : CourseDoc) : Bool :=
  requiredCoursePresent c && validStatus c.status && validVisibility c.visibility &&
  c.chapters.all validChapter

/-- One question triple of quizSchema.questions: question and
correctAnswer are required strings; the options array field defaults to []
and Mongoose's required check passes for any array value, so it adds no
constraint. -/
structure Question where
  question : Option String
  options : List String
  correctAnswer : Option String
deriving DecidableEq, Repr

def validQuestion (q : Question) : Bool :=
  q.question.isSome && q.correctAnswer.isSome

/-- A quiz document: courseId (required ObjectId ref) and the questions
array. -/
structure QuizDoc where
  courseId : Option String
  questions : List Question
deriving DecidableEq, Repr

/-- Validation run by Quiz.prototype.save: courseId must be present and
cast to an ObjectId, and every question subdocument must validate. -/
def validQuiz (q : QuizDoc) : Bool :=
  (match q.courseId with
   | some s => isValidObjectId s
   | none => false) &&
  q.questions.all validQuestion

/-- Partial update payload for PUT /api/courses/:id: none means the field
is omitted from the body (and so keeps its prior value under $set). -/
structure CourseUpdate where
  category : Option String
  title : Option String
  description : Option String
  duration : Option Int
  instructorName : Option String
  language : Option String
  level : Option String
  price : Option Int
  status : Option String
  visibility : Option String
  chapters : Option (List Chapter)
deriving DecidableEq, Repr

/-- Merge semantics of findByIdAndUpdate with a plain body: each supplied
top-level field is $set, omitted fields keep their prior value. -/
def applyCourseUpdate (c : CourseDoc) (u : CourseUpdate) : CourseDoc where
  category := match u.category with | some v => some v | none => c.category
  title := match u.title with | some v => some v | none => c.title
  description := match u.description with | some v => some v | none => c.description
  duration := match u.duration with | some v => some v | none => c.duration
  instructorName := match u.instructorName with | some v => some v | none => c.instructorName
  language := match u.language with | some v => some v | none => c.language
  level := match u.level with | some v => some v | none => c.level
  price := match u.price with | some v => some v | none => c.price
  status := match u.status with | some v => some v | none => c.status
  visibility := match u.visibility with | some v => some v | none => c.visibility
  chapters := match u.chapters with | some v => v | none => c.chapters

/-- Partial update payload for PUT /api/quizzes/:id. -/
structure QuizUpdate where
  courseId : Option String
  questions : Option (List Question)
deriving DecidableEq, Repr

/-- Update validation performed because that handler passes
runValidators: true — each path present in the update is cast and
validated before the query executes (omitted paths are not checked). -/
def validQuizUpdate (u : QuizUpdate) : Bool :=
  (match u.courseId with
   | some s => isValidObjectId s
   | none => true) &&
  (match u.questions with
   | some qs => qs.all validQuestion
   | none => true)

def applyQuizUpdate (q : QuizDoc) (u : QuizUpdate) : QuizDoc where
  courseId := match u.courseId with | some v => some v | none => q.courseId
  questions := match u.questions with | some v => v | none => q.questions

/-- The two MongoDB collections, as association lists keyed by _id. -/
structure Store where
  courses : List (String × CourseDoc)
  quizzes : List (String × QuizDoc)
deriving DecidableEq, Repr

/-- findById / findOne semantics on a collection: first match by key. -/
def findDoc {α : Type} : List (String × α) → String → Option α
  | [], _ => none
  | (k, v) :: rest, s => if k == s then some v else findDoc rest s

/-- findByIdAndDelete semantics: remove the first document with the key. -/
def removeDoc {α : Type} : List (String × α) → String → List (String × α)
  | [], _ => []
  | (k, v) :: rest, s => if k == s then rest else (k, v) :: removeDoc rest s

/-- findByIdAndUpdate write-back: replace the first document with the key. -/
def updateDoc {α : Type} : List (String × α) → String → α → List (String × α)
  | [], _, _ => []
  | (k, w) :: rest, s, v => if k == s then (k, v) :: rest else (k, w) :: updateDoc rest s v

/-- The JSON body of a response, tagged by shape; err carries the payload
of res.json with an error key, msg the payload with a message key. -/
inductive Body where
  | course (id : String) (c : CourseDoc)
  | quiz (id : String) (q : QuizDoc)
  | courses (cs : List (String × CourseDoc))
  | quizzes (qs : List (String × QuizDoc))
  | err (s : String)
  | msg (s : String)
deriving DecidableEq, Repr

/-- An HTTP response together with the store state after the handler. -/
structure Resp where
  status : Nat
  body : Body
  store : Store
deriving DecidableEq, Repr

/-- POST /api/courses — new Course(req.body); save(); 201 with the record
on success, 400 with the validation error otherwise. newId is the
identifier mongoose generates for the document. -/
def postCourse (st : Store) (body : CourseDoc) (newId : String) : Resp :=
  if validCourse body then
    { status := 201, body := Body.course newId body,
      store := { st with courses := st.courses ++ [(newId, body)] } }
  else
    { status := 400, body := Body.err "ValidationError", store := st }

/-- GET /api/courses — Course.find(); 200 with every record. -/
def getCourses (st : Store) : Resp :=
  { status := 200, body := Body.courses st.courses, store := st }

/-- GET /api/courses/:id — findById; CastError on a malformed id is caught
as 400, an absent record is 404. -/
def getCourse (st : Store) (id : String) : Resp :=
  if isValidObjectId id then
    match findDoc st.courses id with
    | some c => { status := 200, body := Body.course id c, store := st }
    | none => { status := 404, body := Body.err "Course not found", store := st }
  else
    { status := 400, body := Body.err "CastError", store := st }

/-- PUT /api/courses/:id — findByIdAndUpdate(id, req.body, new: true),
without runValidators, so the merged document is written back without any
schema validation. -/
def putCourse (st : Store) (id : String) (u : CourseUpdate) : Resp :=
  if isValidObjectId id then
    match findDoc st.courses id with
    | some c =>
      { status := 200, body := Body.course id (applyCourseUpdate c u),
        store := { st with courses := updateDoc st.courses id (applyCourseUpdate c u) } }
    | none => { status := 404, body := Body.err "Course not found", store := st }
  else
    { status := 400, body := Body.err "CastError", store := st }

/-- DELETE /api/courses/:id — findByIdAndDelete; 200 with a confirmation
message, 404 when absent, 400 on a malformed id. -/
def deleteCourse (st : Store) (id : String) : Resp :=
  if isValidObjectId id then
    match findDoc st.courses id with
    | some _ =>
      { status := 200, body := Body.msg "Course deleted",
        store := { st with courses := removeDoc st.courses id } }
    | none => { status := 404, body := Body.err "Course not found", store := st }
  else
    { status := 400, body := Body.err "CastError", store := st }

/-- POST /api/courses/:courseId/quizzes — first Course.findById(courseId)
(CastError caught as 400, absent course 404 before anything is written),
then new Quiz(spread of req.body with courseId overridden by the path
parameter); save() validates and inserts. -/
def postQuizForCourse (st : Store) (courseId : String) (body : QuizDoc) (newId : String) : Resp :=
  if isValidObjectId courseId then
    match findDoc st.courses courseId with
    | none => { status := 404, body := Body.err "Course not found", store := st }
    | some _ =>
      if validQuiz { body with courseId := some courseId } then
        { status := 201, body := Body.quiz newId { body with courseId := some courseId },
          store := { st with quizzes := st.quizzes ++ [(newId, { body with courseId := some courseId })] } }
      else
        { status := 400, body := Body.err "ValidationError", store := st }
  else
    { status := 400, body := Body.err "CastError", store := st }

/-- GET /api/courses/:courseId/quizzes — Quiz.find by courseId; no course
existence check, an empty list when nothing matches. -/
def getQuizzesForCourse (st : Store) (courseId : String) : Resp :=
  if isValidObjectId courseId then
    { status := 200,
      body := Body.quizzes (st.quizzes.filter (fun p => p.2.courseId == some courseId)),
      store := st }
  else
    { status := 400, body := Body.err "CastError", store := st }

/-- GET /api/quizzes/:id — findById; 404 when absent, 400 on a malformed
id. -/
def getQuiz (st : Store) (id : String) : Resp :=
  if isValidObjectId id then
    match findDoc st.quizzes id with
    | some q => { status := 200, body := Body.quiz id q, store := st }
    | none => { status := 404, body := Body.err "Quiz not found", store := st }
  else
    { status := 400, body := Body.err "CastError", store := st }

/-- PUT /api/quizzes/:id — findByIdAndUpdate with new and
runValidators: true; the id cast and the update validation happen before
the query executes, and this handler's catch maps any thrown error to
500 with a message body; its 404 body also uses the message key. -/
def putQuiz (st : Store) (id : String) (u : QuizUpdate) : Resp :=
  if isValidObjectId id && validQuizUpdate u then
    match findDoc st.quizzes id with
    | some q =>
      { status := 200, body := Body.quiz id (applyQuizUpdate q u),
        store := { st with quizzes := updateDoc st.quizzes id (applyQuizUpdate q u) } }
    | none => { status := 404, body := Body.msg "Quiz not found", store := st }
  else
    { status := 500, body := Body.msg "Server error", store := st }

/-- DELETE /api/quizzes/:id — findByIdAndDelete; 200 with a confirmation
message, 404 when absent, 400 on a malformed id. -/
def deleteQuiz (st : Store) (id : String) : Resp :=
  if isValidObjectId id then
    match findDoc st.quizzes id with
    | some _ =>
      { status := 200, body := Body.msg "Quiz deleted",
        store := { st with quizzes := removeDoc st.quizzes id } }
    | none => { status := 404, body := Body.err "Quiz not found", store := st }
  else
    { status := 400, body := Body.err "CastError", store := st }

/-- Inserting a fresh key at the end of a collection makes it found. -/
theorem findDoc_append_fresh {α : Type} (l : List (String × α)) (k : String) (v : α)
    (h : findDoc l k = none) : findDoc (l ++ [(k, v)]) k = some v := by
  induction l with
  | nil => simp [findDoc]
  | cons p rest ih =>
    obtain ⟨k₀, v₀⟩ := p
    by_cases hk : k₀ = k
    · simp [findDoc, hk] at h
    · simp [findDoc, hk] at h ⊢
      exact ih h

/-- Replacing a found document makes the replacement found. -/
theorem findDoc_updateDoc_self {α : Type} (l : List (String × α)) (k : String) (c v : α)
    (h : findDoc l k = some c) : findDoc (updateDoc l k v) k = some v := by
  induction l with
  | nil => simp [findDoc] at h
  | cons p rest ih =>
    obtain ⟨k₀, v₀⟩ := p
    by_cases hk : k₀ = k
    · simp [findDoc, updateDoc, hk]
    · simp [findDoc, updateDoc, hk] at h ⊢
      exact ih h

/-- Removal of one key leaves lookups of every other key unchanged. -/
theorem findDoc_removeDoc_ne {α : Type} (l : List (String × α)) (s k : String)
    (h : k ≠ s) : findDoc (removeDoc l s) k = findDoc l k := by
  induction l with
  | nil => simp [removeDoc]
  | cons p rest ih =>
    obtain ⟨k₀, v₀⟩ := p
    by_cases hk : k₀ = s
    · subst hk
      simp [removeDoc, findDoc, Ne.symm h]
    · simp [removeDoc, findDoc, hk]
      by_cases hk2 : k₀ = k
      · simp [hk2]
      · simp [hk2]
        exact ih

/-- A successful lookup means the key occurs in the collection. -/
theorem findDoc_some_mem {α : Type} (l : List (String × α)) (s : String) (w : α)
    (h : findDoc l s = some w) : (s, w) ∈ l := by
  induction l with
  | nil => simp [findDoc] at h
  | cons p rest ih =>
    obtain ⟨k₀, v₀⟩ := p
    by_cases hk : k₀ = s
    · subst hk
      simp [findDoc] at h
      subst h
      exact List.mem_cons_self _ _
    · simp [findDoc, hk] at h
      exact List.mem_cons_of_mem _ (ih h)

/-- With duplicate-free keys, removing a key makes it absent. -/
theorem findDoc_removeDoc_self {α : Type} (l : List (String × α)) (s : String)
    (hnd : (l.map Prod.fst).Nodup) : findDoc (removeDoc l s) s = none := by
  induction l with
  | nil => simp [removeDoc, findDoc]
  | cons p rest ih =>
    obtain ⟨k₀, v₀⟩ := p
    simp only [List.map_cons, List.nodup_cons] at hnd
    by_cases hk : k₀ = s
    · subst hk
      cases hfind : findDoc rest k₀ with
      | none => simpa [removeDoc] using hfind
      | some w =>
        exact absurd (List.mem_map_of_mem Prod.fst (findDoc_some_mem rest k₀ w hfind)) hnd.1
    · simp [removeDoc, findDoc, hk]
      exact ih hnd.2

/-- A concrete well-formed ObjectId used by the closed theorems. -/
def oidA : String := "aaaaaaaaaaaaaaaaaaaaaaaa"

/-- A second concrete well-formed ObjectId, distinct from oidA. -/
def oidB : String := "bbbbbbbbbbbbbbbbbbbbbbbb"

/-- A third concrete well-formed ObjectId. -/
def oidC : String := "cccccccccccccccccccccccc"

/-- A concrete fully valid course payload. -/
def sampleCourse : CourseDoc where
  category := some "programming"
  title := some "Intro"
  description := some "d"
  duration := some 5
  instructorName := some "A"
  language := some "en"
  level := some "beginner"
  price := some 10
  status := some "draft"
  visibility := some "private"
  chapters := []

/-- A concrete valid quiz payload (no courseId supplied in the body). -/
def sampleQuiz : QuizDoc where
  courseId := none
  questions := [{ question := some "q1", options := ["x", "y"], correctAnswer := some "x" }]

/-- The empty store. -/
def emptyStore : Store where
  courses := []
  quizzes := []

/-- C1: creating a quiz under a well-formed course identifier that is
absent from the store returns 404 and performs no write at all: the quiz
collection — indeed the whole store — is unchanged, because the existence
read precedes the quiz construction and save. -/
theorem quizCreate_missingCourse_404_noWrite (st : Store) (cid : String)
    (body : QuizDoc) (newId : String)
    (hid : isValidObjectId cid = true)
    (habsent : findDoc st.courses cid = none) :
    (postQuizForCourse st cid body newId).status = 404 ∧
    (postQuizForCourse st cid body newId).store.quizzes = st.quizzes ∧
    (postQuizForCourse st cid body newId).store = st := by
  simp [postQuizForCourse, hid, habsent]

/-- Witness for C1 at the empty store and a concrete id. -/
theorem quizCreate_missingCourse_404_noWrite_witness :
    (postQuizForCourse emptyStore oidA sampleQuiz oidB).status = 404 ∧
    (postQuizForCourse emptyStore oidA sampleQuiz oidB).store.quizzes = emptyStore.quizzes ∧
    (postQuizForCourse emptyStore oidA sampleQuiz oidB).store = emptyStore :=
  quizCreate_missingCourse_404_noWrite emptyStore oidA sampleQuiz oidB (by decide) (by decide)

/-- C3: POSTing a valid course payload returns 201 carrying the generated
identifier and the submitted record, and a GET by that identifier on the
resulting store returns 200 with exactly the submitted record under that
identifier. -/
theorem coursePost_thenGet_roundTrip (st : Store) (body : CourseDoc) (newId : String)
    (hbody : validCourse body = true)
    (hid : isValidObjectId newId = true)
    (hfresh : findDoc st.courses newId = none) :
    (postCourse st body newId).status = 201 ∧
    (postCourse st body newId).body = Body.course newId body ∧
    (getCourse (postCourse st body newId).store newId).status = 200 ∧
    (getCourse (postCourse st body newId).store newId).body = Body.course newId body := by
  have hfind : findDoc (st.courses ++ [(newId, body)]) newId = some body :=
    findDoc_append_fresh st.courses newId body hfresh
  refine ⟨?_, ?_, ?_, ?_⟩ <;> simp [postCourse, hbody, getCourse, hid, hfind]

/-- Witness for C3 at the empty store with the sample payload. -/
theorem coursePost_thenGet_roundTrip_witness :
    (postCourse emptyStore sampleCourse oidA).status = 201 ∧
    (postCourse emptyStore sampleCourse oidA).body = Body.course oidA sampleCourse ∧
    (getCourse (postCourse emptyStore sampleCourse oidA).store oidA).status = 200 ∧
    (getCourse (postCourse emptyStore sampleCourse oidA).store oidA).body = Body.course oidA sampleCourse :=
  coursePost_thenGet_roundTrip emptyStore sampleCourse oidA (by decide) (by decide) (by decide)

/-- C5: a course payload with any required field absent is rejected by
save's validation: the handler returns 400 and the store is unchanged. -/
theorem courseCreate_missingRequired_400_noWrite (st : Store) (body : CourseDoc) (newId : String)
    (h : requiredCoursePresent body = false) :
    (postCourse st body newId).status = 400 ∧
    (postCourse st body newId).store = st := by
  have hv : validCourse body = false := by
    simp [validCourse, h]
  simp [postCourse, hv]

/-- Witness for C5: the sample payload with its title removed. -/
theorem courseCreate_missingRequired_400_noWrite_witness :
    (postCourse emptyStore { sampleCourse with title := none } oidA).status = 400 ∧
    (postCourse emptyStore { sampleCourse with title := none } oidA).store = emptyStore :=
  courseCreate_missingRequired_400_noWrite emptyStore { sampleCourse with title := none } oidA (by decide)

/-- The course update payload supplying no field at all. -/
def emptyCourseUpdate : CourseUpdate where
  category := none
  title := none
  description := none
  duration := none
  instructorName := none
  language := none
  level := none
  price := none
  status := none
  visibility := none
  chapters := none

/-- The quiz update payload supplying no field at all. -/
def emptyQuizUpdate : QuizUpdate where
  courseId := none
  questions := none

/-- A concrete store holding one course under oidB and one quiz under
oidC referencing that course. -/
def storeCQ : Store where
  courses := [(oidB, sampleCourse)]
  quizzes := [(oidC, { sampleQuiz with courseId := some oidB })]

/-- Spec-side frame predicate for a course update: every supplied field is
set to the supplied value, every omitted field keeps its prior value. -/
def courseFrame (old new : CourseDoc) (u : CourseUpdate) : Prop :=
  (u.category = none → new.category = old.category) ∧
  (∀ x, u.category = some x → new.category = some x) ∧
  (u.title = none → new.title = old.title) ∧
  (∀ x, u.title = some x → new.title = some x) ∧
  (u.description = none → new.description = old.description) ∧
  (∀ x, u.description = some x → new.description = some x) ∧
  (u.duration = none → new.duration = old.duration) ∧
  (∀ x, u.duration = some x → new.duration = some x) ∧
  (u.instructorName = none → new.instructorName = old.instructorName) ∧
  (∀ x, u.instructorName = some x → new.instructorName = some x) ∧
  (u.language = none → new.language = old.language) ∧
  (∀ x, u.language = some x → new.language = some x) ∧
  (u.level = none → new.level = old.level) ∧
  (∀ x, u.level = some x → new.level = some x) ∧
  (u.price = none → new.price = old.price) ∧
  (∀ x, u.price = some x → new.price = some x) ∧
  (u.status = none → new.status = old.status) ∧
  (∀ x, u.status = some x → new.status = some x) ∧
  (u.visibility = none → new.visibility = old.visibility) ∧
  (∀ x, u.visibility = some x → new.visibility = some x) ∧
  (u.chapters = none → new.chapters = old.chapters) ∧
  (∀ x, u.chapters = some x → new.chapters = x)

/-- Spec-side frame predicate for a quiz update. -/
def quizFrame (old new : QuizDoc) (u : QuizUpdate) : Prop :=
  (u.courseId = none → new.courseId = old.courseId) ∧
  (∀ x, u.courseId = some x → new.courseId = some x) ∧
  (u.questions = none → new.questions = old.questions) ∧
  (∀ x, u.questions = some x → new.questions = x)

theorem applyCourseUpdate_frame (c : CourseDoc) (u : CourseUpdate) :
    courseFrame c (applyCourseUpdate c u) u := by
  unfold courseFrame
  refine ⟨?_, ?_, ?_, ?_, ?_, ?_, ?_, ?_, ?_, ?_, ?_, ?_, ?_, ?_, ?_, ?_, ?_, ?_, ?_, ?_, ?_, ?_⟩ <;>
    first
      | (intro h; simp [applyCourseUpdate, h])
      | (intro x h; simp [applyCourseUpdate, h])

theorem applyQuizUpdate_frame (q : QuizDoc) (u : QuizUpdate) :
    quizFrame q (applyQuizUpdate q u) u := by
  unfold quizFrame
  refine ⟨?_, ?_, ?_, ?_⟩ <;>
    first
      | (intro h; simp [applyQuizUpdate, h])
      | (intro x h; simp [applyQuizUpdate, h])

/-- C4: updating an existing course or quiz by id applies exactly the
supplied fields, keeps every omitted field, stores the merged record and
returns it with status 200 (for the quiz route, provided the update passes
its runValidators check). -/
theorem put_partialUpdate_frame (st : Store) (cid qid : String)
    (c : CourseDoc) (q : QuizDoc) (u : CourseUpdate) (v : QuizUpdate)
    (hcid : isValidObjectId cid = true) (hqid : isValidObjectId qid = true)
    (hc : findDoc st.courses cid = some c) (hq : findDoc st.quizzes qid = some q)
    (hv : validQuizUpdate v = true) :
    (putCourse st cid u).status = 200 ∧
    (putCourse st cid u).body = Body.course cid (applyCourseUpdate c u) ∧
    findDoc (putCourse st cid u).store.courses cid = some (applyCourseUpdate c u) ∧
    courseFrame c (applyCourseUpdate c u) u ∧
    (putQuiz st qid v).status = 200 ∧
    (putQuiz st qid v).body = Body.quiz qid (applyQuizUpdate q v) ∧
    findDoc (putQuiz st qid v).store.quizzes qid = some (applyQuizUpdate q v) ∧
    quizFrame q (applyQuizUpdate q v) v := by
  refine ⟨?_, ?_, ?_, applyCourseUpdate_frame c u, ?_, ?_, ?_, applyQuizUpdate_frame q v⟩
  · simp [putCourse, hcid, hc]
  · simp [putCourse, hcid, hc]
  · simp only [putCourse, hcid, hc, if_true]
    exact findDoc_updateDoc_self _ _ _ _ hc
  · simp [putQuiz, hqid, hv, hq]
  · simp [putQuiz, hqid, hv, hq]
  · simp only [putQuiz, hqid, hv, hq, Bool.and_self, if_true]
    exact findDoc_updateDoc_self _ _ _ _ hq

/-- Witness for C4: a title-only course update and a questions-only quiz
update against the concrete store. -/
theorem put_partialUpdate_frame_witness :
    (putCourse storeCQ oidB { emptyCourseUpdate with title := some "New" }).status = 200 ∧
    findDoc (putCourse storeCQ oidB { emptyCourseUpdate with title := some "New" }).store.courses oidB =
      some (applyCourseUpdate sampleCourse { emptyCourseUpdate with title := some "New" }) ∧
    (putQuiz storeCQ oidC { emptyQuizUpdate with courseId := some oidA }).status = 200 ∧
    findDoc (putQuiz storeCQ oidC { emptyQuizUpdate with courseId := some oidA }).store.quizzes oidC =
      some (applyQuizUpdate { sampleQuiz with courseId := some oidB } { emptyQuizUpdate with courseId := some oidA }) :=
  have h := put_partialUpdate_frame storeCQ oidB oidC sampleCourse
    { sampleQuiz with courseId := some oidB }
    { emptyCourseUpdate with title := some "New" }
    { emptyQuizUpdate with courseId := some oidA }
    (by decide) (by decide) (by decide) (by decide) (by decide)
  ⟨h.1, h.2.2.1, h.2.2.2.2.1, h.2.2.2.2.2.2.1⟩

/-- C6: on a well-formed identifier absent from the respective collection,
GET, PUT and DELETE return 404 for both courses and quizzes and leave the
store untouched (the quiz PUT with an update that passes its validators);
moreover after a successful DELETE the same identifier is absent, so a
second DELETE returns 404 rather than crashing. -/
theorem absentId_operations_404 (st : Store) (cid qid cid2 qid2 : String)
    (c2 : CourseDoc) (q2 : QuizDoc) (u : CourseUpdate) (v : QuizUpdate)
    (hcid : isValidObjectId cid = true) (hqid : isValidObjectId qid = true)
    (hcid2 : isValidObjectId cid2 = true) (hqid2 : isValidObjectId qid2 = true)
    (hc : findDoc st.courses cid = none) (hq : findDoc st.quizzes qid = none)
    (hv : validQuizUpdate v = true)
    (hc2 : findDoc st.courses cid2 = some c2) (hq2 : findDoc st.quizzes qid2 = some q2)
    (hndc : (st.courses.map Prod.fst).Nodup) (hndq : (st.quizzes.map Prod.fst).Nodup) :
    (getCourse st cid).status = 404 ∧ (getCourse st cid).store = st ∧
    (putCourse st cid u).status = 404 ∧ (putCourse st cid u).store = st ∧
    (deleteCourse st cid).status = 404 ∧ (deleteCourse st cid).store = st ∧
    (getQuiz st qid).status = 404 ∧ (getQuiz st qid).store = st ∧
    (putQuiz st qid v).status = 404 ∧ (putQuiz st qid v).store = st ∧
    (deleteQuiz st qid).status = 404 ∧ (deleteQuiz st qid).store = st ∧
    (deleteCourse (deleteCourse st cid2).store cid2).status = 404 ∧
    (deleteQuiz (deleteQuiz st qid2).store qid2).status = 404 := by
  have hrmc : findDoc (removeDoc st.courses cid2) cid2 = none :=
    findDoc_removeDoc_self st.courses cid2 hndc
  have hrmq : findDoc (removeDoc st.quizzes qid2) qid2 = none :=
    findDoc_removeDoc_self st.quizzes qid2 hndq
  refine ⟨?_, ?_, ?_, ?_, ?_, ?_, ?_, ?_, ?_, ?_, ?_, ?_, ?_, ?_⟩ <;>
    simp [getCourse, putCourse, deleteCourse, getQuiz, putQuiz, deleteQuiz,
      hcid, hqid, hcid2, hqid2, hc, hq, hv, hc2, hq2, hrmc, hrmq]

/-- Witness for C6 at the concrete store: oidA is absent from both
collections, oidB holds a course, oidC a quiz. -/
theorem absentId_operations_404_witness :
    (getCourse storeCQ oidA).status = 404 ∧ (getCourse storeCQ oidA).store = storeCQ ∧
    (putCourse storeCQ oidA emptyCourseUpdate).status = 404 ∧
    (putCourse storeCQ oidA emptyCourseUpdate).store = storeCQ ∧
    (deleteCourse storeCQ oidA).status = 404 ∧ (deleteCourse storeCQ oidA).store = storeCQ ∧
    (getQuiz storeCQ oidA).status = 404 ∧ (getQuiz storeCQ oidA).store = storeCQ ∧
    (putQuiz storeCQ oidA emptyQuizUpdate).status = 404 ∧
    (putQuiz storeCQ oidA emptyQuizUpdate).store = storeCQ ∧
    (deleteQuiz storeCQ oidA).status = 404 ∧ (deleteQuiz storeCQ oidA).store = storeCQ ∧
    (deleteCourse (deleteCourse storeCQ oidB).store oidB).status = 404 ∧
    (deleteQuiz (deleteQuiz storeCQ oidC).store oidC).status = 404 :=
  absentId_operations_404 storeCQ oidA oidA oidB oidC sampleCourse
    { sampleQuiz with courseId := some oidB } emptyCourseUpdate emptyQuizUpdate
    (by decide) (by decide) (by decide) (by decide) (by decide) (by decide)
    (by decide) (by decide) (by decide) (by decide) (by decide)

/-- C8: deleting an existing course removes exactly that course record:
the quiz collection is untouched (no cascade over quizzes referencing the
course) and every other course identifier resolves as before. -/
theorem courseDelete_noCascade (st : Store) (cid k : String) (c : CourseDoc)
    (hid : isValidObjectId cid = true)
    (hc : findDoc st.courses cid = some c)
    (hk : k ≠ cid) :
    (deleteCourse st cid).status = 200 ∧
    (deleteCourse st cid).store.quizzes = st.quizzes ∧
    (deleteCourse st cid).store.courses = removeDoc st.courses cid ∧
    findDoc (deleteCourse st cid).store.courses k = findDoc st.courses k := by
  refine ⟨?_, ?_, ?_, ?_⟩
  · simp [deleteCourse, hid, hc]
  · simp [deleteCourse, hid, hc]
  · simp [deleteCourse, hid, hc]
  · simp only [deleteCourse, hid, hc, if_true]
    exact findDoc_removeDoc_ne st.courses cid k hk

/-- Witness for C8: deleting the course oidB from the concrete store. -/
theorem courseDelete_noCascade_witness :
    (deleteCourse storeCQ oidB).status = 200 ∧
    (deleteCourse storeCQ oidB).store.quizzes = storeCQ.quizzes ∧
    (deleteCourse storeCQ oidB).store.courses = removeDoc storeCQ.courses oidB ∧
    findDoc (deleteCourse storeCQ oidB).store.courses oidA = findDoc storeCQ.courses oidA :=
  courseDelete_noCascade storeCQ oidB oidA sampleCourse (by decide) (by decide) (by decide)

/-- C2 counterexample: the course PUT handler calls findByIdAndUpdate
without runValidators, so an update setting status to a value outside
its enumeration is accepted with 200 and the invalid record is persisted,
refuting the claim that such an update is rejected. -/
theorem courseUpdate_invariant_cex :
    (putCourse storeCQ oidB { emptyCourseUpdate with status := some "bogus" }).status = 200 ∧
    findDoc (putCourse storeCQ oidB { emptyCourseUpdate with status := some "bogus" }).store.courses oidB =
      some { sampleCourse with status := some "bogus" } ∧
    validStatus (some "bogus") = false ∧
    validCourse { sampleCourse with status := some "bogus" } = false := by
  decide

/-- C2 amended: the enum and required-presence invariant is enforced at
creation — any payload a POST accepts with 201 satisfies it and is stored
as submitted — but updates are applied unvalidated. -/
theorem courseCreate_enforces_invariant (st : Store) (body : CourseDoc) (newId : String)
    (h : (postCourse st body newId).status = 201) :
    validCourse body = true ∧
    requiredCoursePresent body = true ∧
    validStatus body.status = true ∧
    validVisibility body.visibility = true ∧
    (postCourse st body newId).store.courses = st.courses ++ [(newId, body)] := by
  have hv : validCourse body = true := by
    by_contra hfalse
    simp only [Bool.not_eq_true] at hfalse
    simp [postCourse, hfalse] at h
  have h1 := hv
  simp only [validCourse, Bool.and_eq_true] at h1
  exact ⟨hv, h1.1.1.1, h1.1.1.2, h1.1.2, by simp [postCourse, hv]⟩

/-- Witness for the amended C2 at the sample payload. -/
theorem courseCreate_enforces_invariant_witness :
    validCourse sampleCourse = true ∧
    requiredCoursePresent sampleCourse = true ∧
    validStatus sampleCourse.status = true ∧
    validVisibility sampleCourse.visibility = true ∧
    (postCourse emptyStore sampleCourse oidA).store.courses = emptyStore.courses ++ [(oidA, sampleCourse)] :=
  courseCreate_enforces_invariant emptyStore sampleCourse oidA (by decide)

/-- C7 counterexample: a malformed identifier on the quiz PUT route is
mapped by that handler's catch to 500, not to the claimed 400. -/
theorem malformedId_quizPut_cex :
    (putQuiz emptyStore "not-a-valid-objectid" emptyQuizUpdate).status = 500 ∧
    (putQuiz emptyStore "not-a-valid-objectid" emptyQuizUpdate).status ≠ 400 := by
  decide

/-- C7 amended: a malformed identifier yields 400 on course GET, PUT and
DELETE and on quiz GET and DELETE, but 500 on quiz PUT, whose catch block
returns a generic server error; in every case the store is unchanged. -/
theorem malformedId_statusCodes (st : Store) (s : String) (u : CourseUpdate) (v : QuizUpdate)
    (h : isValidObjectId s = false) :
    (getCourse st s).status = 400 ∧ (getCourse st s).store = st ∧
    (putCourse st s u).status = 400 ∧ (putCourse st s u).store = st ∧
    (deleteCourse st s).status = 400 ∧ (deleteCourse st s).store = st ∧
    (getQuiz st s).status = 400 ∧ (getQuiz st s).store = st ∧
    (deleteQuiz st s).status = 400 ∧ (deleteQuiz st s).store = st ∧
    (putQuiz st s v).status = 500 ∧ (putQuiz st s v).store = st := by
  refine ⟨?_, ?_, ?_, ?_, ?_, ?_, ?_, ?_, ?_, ?_, ?_, ?_⟩ <;>
    simp [getCourse, putCourse, deleteCourse, getQuiz, deleteQuiz, putQuiz, h]

/-- Witness for the amended C7 at a concrete malformed identifier. -/
theorem malformedId_statusCodes_witness :
    (getCourse storeCQ "zz").status = 400 ∧ (getCourse storeCQ "zz").store = storeCQ ∧
    (putCourse storeCQ "zz" emptyCourseUpdate).status = 400 ∧
    (putCourse storeCQ "zz" emptyCourseUpdate).store = storeCQ ∧
    (deleteCourse storeCQ "zz").status = 400 ∧ (deleteCourse storeCQ "zz").store = storeCQ ∧
    (getQuiz storeCQ "zz").status = 400 ∧ (getQuiz storeCQ "zz").store = storeCQ ∧
    (deleteQuiz storeCQ "zz").status = 400 ∧ (deleteQuiz storeCQ "zz").store = storeCQ ∧
    (putQuiz storeCQ "zz" emptyQuizUpdate).status = 500 ∧
    (putQuiz storeCQ "zz" emptyQuizUpdate).store = storeCQ :=
  malformedId_statusCodes storeCQ "zz" emptyCourseUpdate emptyQuizUpdate (by decide)

/-- The sample course with negative duration and price. -/
def negCourse : CourseDoc :=
  { sampleCourse with duration := some (-5), price := some (-10) }

/-- C9 counterexample: the schema puts no lower bound on duration or
price, so a payload with negative values is accepted with 201 and
persisted, refuting the claim that it is rejected. -/
theorem negativeNumbers_accepted_cex :
    (postCourse emptyStore negCourse oidA).status = 201 ∧
    findDoc (postCourse emptyStore negCourse oidA).store.courses oidA = some negCourse := by
  decide

/-- C9 amended: duration and price are required — a payload omitting
either is rejected with 400 and nothing is persisted — but their values
are unconstrained: replacing them in any valid payload by arbitrary
integers, negative included, still yields 201. -/
theorem duration_price_presence_only (st : Store) (body : CourseDoc) (newId : String) (d p : Int)
    (h : validCourse body = true) :
    (postCourse st { body with duration := some d, price := some p } newId).status = 201 ∧
    (postCourse st { body with duration := none } newId).status = 400 ∧
    (postCourse st { body with duration := none } newId).store = st ∧
    (postCourse st { body with price := none } newId).status = 400 ∧
    (postCourse st { body with price := none } newId).store = st := by
  have h1 := h
  simp only [validCourse, requiredCoursePresent, Bool.and_eq_true] at h1
  refine ⟨?_, ?_, ?_, ?_, ?_⟩
  · have hv : validCourse { body with duration := some d, price := some p } = true := by
      simp only [validCourse, requiredCoursePresent, Bool.and_eq_true, Option.isSome_some]
      simp only [validStatus, validVisibility] at h1 ⊢
      tauto
    simp [postCourse, hv]
  · simp [postCourse, validCourse, requiredCoursePresent]
  · simp [postCourse, validCourse, requiredCoursePresent]
  · simp [postCourse, validCourse, requiredCoursePresent]
  · simp [postCourse, validCourse, requiredCoursePresent]

/-- Witness for the amended C9 at the sample payload with negative
duration and price. -/
theorem duration_price_presence_only_witness :
    (postCourse emptyStore { sampleCourse with duration := some (-3), price := some (-7) } oidA).status = 201 ∧
    (postCourse emptyStore { sampleCourse with duration := none } oidA).status = 400 ∧
    (postCourse emptyStore { sampleCourse with duration := none } oidA).store = emptyStore ∧
    (postCourse emptyStore { sampleCourse with price := none } oidA).status = 400 ∧
    (postCourse emptyStore { sampleCourse with price := none } oidA).store = emptyStore :=
  duration_price_presence_only emptyStore sampleCourse oidA (-3) (-7) (by decide)

/-- C10: when the referenced course exists and the quiz body validates,
the created quiz is stored with courseId equal to the path parameter —
the spread puts the path parameter after the body, so any courseId in the
body is overridden. -/
theorem quizCreate_pathOverridesBody (st : Store) (cid : String) (c : CourseDoc)
    (body : QuizDoc) (newId : String)
    (hcid : isValidObjectId cid = true)
    (hc : findDoc st.courses cid = some c)
    (hq : body.questions.all validQuestion = true) :
    (postQuizForCourse st cid body newId).status = 201 ∧
    (postQuizForCourse st cid body newId).body = Body.quiz newId { body with courseId := some cid } ∧
    (postQuizForCourse st cid body newId).store.quizzes =
      st.quizzes ++ [(newId, { body with courseId := some cid })] ∧
    ({ body with courseId := some cid } : QuizDoc).courseId = some cid := by
  have hv : validQuiz { body with courseId := some cid } = true := by
    simp [validQuiz, hcid, hq]
  refine ⟨?_, ?_, ?_, rfl⟩ <;> simp [postQuizForCourse, hcid, hc, hv]

/-- Witness for C10: the body supplies courseId oidC, the path parameter
is oidB, and the stored quiz carries oidB. -/
theorem quizCreate_pathOverridesBody_witness :
    (postQuizForCourse storeCQ oidB { sampleQuiz with courseId := some oidC } oidA).status = 201 ∧
    (postQuizForCourse storeCQ oidB { sampleQuiz with courseId := some oidC } oidA).body =
      Body.quiz oidA { sampleQuiz with courseId := some oidB } ∧
    (postQuizForCourse storeCQ oidB { sampleQuiz with courseId := some oidC } oidA).store.quizzes =
      storeCQ.quizzes ++ [(oidA, { sampleQuiz with courseId := some oidB })] ∧
    ({ sampleQuiz with courseId := some oidB } : QuizDoc).courseId = some oidB :=
  have h := quizCreate_pathOverridesBody storeCQ oidB sampleCourse
    { sampleQuiz with courseId := some oidC } oidA (by decide) (by decide) (by decide)
  h

end EduPlatform
